import Mathlib

/-!
Verification development for the `rukai/vulkano` repository.

The repository contains the `vulkano-shaders` procedural-macro crate
(`vulkano-shaders/src/lib.rs`: the `MacroInput` parser and the
`vulkano_shader` entry point) and two example programs
(`examples/src/bin/triangle.rs` and `examples/src/bin/list_devices.rs`).

This file gives a shallow embedding of:
  * the field-by-field parser `impl Parse for MacroInput` (lib.rs:193-280),
  * the macro entry point `vulkano_shader` (lib.rs:282-306), with the
    external shader compiler and the reflection backend abstracted as
    function parameters (their implementations, `codegen::compile` and
    `codegen::reflect`, live in submodules whose sources are not part of
    this tree),
  * the per-iteration behaviour of the triangle example's render loop
    (triangle.rs:145-244), and
  * the per-frame `GpuFuture` chain the triangle example builds
    (triangle.rs:229-234),
and proves the frozen claims about them.
-/

set_option autoImplicit false

namespace Vulkano

/-- Shader kinds, from `codegen::ShaderKind` as used by the `ty` match in
`MacroInput::parse` (lib.rs:219-227). -/
inductive ShaderKind
  | vertex
  | fragment
  | geometry
  | tessControl
  | tessEvaluation
  | compute
  deriving DecidableEq, Repr

/-- The syntactic shape of the value standing after `name:` in one field of
the macro invocation: an identifier (`mod_name`), a string literal
(`ty`, `src`, `path`) or a boolean literal (`dump`). -/
inductive FieldValue
  | identVal (s : String)
  | strVal (s : String)
  | boolVal (b : Bool)
  deriving DecidableEq, Repr

/-- One `name: value` field of the macro invocation. -/
structure RawField where
  name : String
  value : FieldValue
  deriving DecidableEq, Repr

/-- How a run of `MacroInput::parse` (and of the macro body) can fail:
`panicked msg` models a Rust `panic!` with the given message, and
`parseFailed` models `syn` returning `Err` because a value token had the
wrong syntactic shape for its field. -/
inductive SynError
  | panicked (msg : String)
  | parseFailed
  deriving DecidableEq, Repr

/-- The enum `SourceKind` from lib.rs:181-184. -/
inductive SourceKind
  | src (s : String)
  | path (p : String)
  deriving DecidableEq, Repr

/-- The struct `MacroInput` from lib.rs:186-191 (the `Ident` is modelled by its
string). -/
structure MacroInput where
  modIdent : String
  shaderKind : ShaderKind
  sourceKind : SourceKind
  dump : Bool
  deriving DecidableEq, Repr

/-- The four mutable `Option` locals of `MacroInput::parse`
(lib.rs:195-198). -/
structure ParseState where
  dump : Option Bool
  modIdent : Option String
  shaderKind : Option ShaderKind
  sourceKind : Option SourceKind
  deriving DecidableEq, Repr

/-- The six strings the `ty` field accepts (lib.rs:220-225). -/
def tyStrings : List String :=
  ["vertex", "fragment", "geometry", "tess_ctrl", "tess_eval", "compute"]

/-- The panic message for an unrecognised `ty` value (lib.rs:226). -/
def tyPanicMessage : String :=
  "Unexpected shader type, valid values: vertex, fragment, geometry, tess_ctrl, tess_eval, compute"

/-- The `match ty.value().as_ref()` of lib.rs:219-227. -/
def shaderKindOfTy (s : String) : Except SynError ShaderKind :=
  if s = "vertex" then .ok .vertex
  else if s = "fragment" then .ok .fragment
  else if s = "geometry" then .ok .geometry
  else if s = "tess_ctrl" then .ok .tessControl
  else if s = "tess_eval" then .ok .tessEvaluation
  else if s = "compute" then .ok .compute
  else .error (.panicked tyPanicMessage)

/-- One iteration of the `while !input.is_empty()` loop of
`MacroInput::parse` (lib.rs:200-259): dispatch on the field name, panic on a
duplicate, record the value.  The duplicate check happens before the value
is parsed, exactly as in the source. -/
def parseField (st : ParseState) (f : RawField) : Except SynError ParseState :=
  if f.name = "mod_name" then
    if st.modIdent.isSome then .error (.panicked "Only one `mod` can be defined")
    else
      match f.value with
      | .identVal s => .ok { st with modIdent := some s }
      | _ => .error .parseFailed
  else if f.name = "ty" then
    if st.shaderKind.isSome then .error (.panicked "Only one `ty` can be defined")
    else
      match f.value with
      | .strVal s =>
        match shaderKindOfTy s with
        | .ok k => .ok { st with shaderKind := some k }
        | .error e => .error e
      | _ => .error .parseFailed
  else if f.name = "src" then
    if st.sourceKind.isSome then .error (.panicked "Only one `src` or `path` can be defined")
    else
      match f.value with
      | .strVal s => .ok { st with sourceKind := some (.src s) }
      | _ => .error .parseFailed
  else if f.name = "path" then
    if st.sourceKind.isSome then .error (.panicked "Only one `src` or `path` can be defined")
    else
      match f.value with
      | .strVal s => .ok { st with sourceKind := some (.path s) }
      | _ => .error .parseFailed
  else if f.name = "dump" then
    if st.dump.isSome then .error (.panicked "Only one `dump` can be defined")
    else
      match f.value with
      | .boolVal b => .ok { st with dump := some b }
      | _ => .error .parseFailed
  else .error (.panicked ("Unknown field name: " ++ f.name))

/-- The whole field loop of `MacroInput::parse`, starting from a given
state. -/
def parseFieldsFrom (st : ParseState) : List RawField → Except SynError ParseState
  | [] => .ok st
  | f :: rest =>
    match parseField st f with
    | .ok st1 => parseFieldsFrom st1 rest
    | .error e => .error e

/-- The checks after the loop (lib.rs:261-278): `ty`, a source and
`mod_name` must have been seen, and `dump` defaults to `false`. -/
def finishInput (st : ParseState) : Except SynError MacroInput :=
  match st.shaderKind with
  | none => .error (.panicked "Please provide a shader type e.g. `ty: \"vertex\"`")
  | some k =>
    match st.sourceKind with
    | none => .error (.panicked "Please provide a source e.g. `path: \"foo.glsl\"` or `src: \"glsl source code here ...\"`")
    | some sk =>
      match st.modIdent with
      | none => .error (.panicked "Please provide a mod e.g. `mod: fs` ")
      | some m => .ok ⟨m, k, sk, st.dump.getD false⟩

/-- The full `MacroInput::parse` (lib.rs:193-280) on an already-tokenised field
list. -/
def parseMacroInput (fields : List RawField) : Except SynError MacroInput :=
  match parseFieldsFrom ⟨none, none, none, none⟩ fields with
  | .ok st => finishInput st
  | .error e => .error e

/-- Number of fields in the list carrying a given name. -/
def countName (n : String) (fields : List RawField) : Nat :=
  (fields.filter (fun f => f.name = n)).length

/-- One when the option is `some`, else zero. -/
def optCount {α : Type} (o : Option α) : Nat :=
  if o.isSome then 1 else 0

/-- The field names `MacroInput::parse` recognises. -/
def knownFieldNames : List String :=
  ["mod_name", "ty", "src", "path", "dump"]

/-- The value of the field has the syntactic shape its name expects
(identifier for `mod_name`, string for `ty`/`src`/`path`, boolean for
`dump`; unknown names never have their value parsed, so any shape will
do). -/
def valueShapeOk (f : RawField) : Bool :=
  if f.name = "mod_name" then
    match f.value with
    | .identVal _ => true
    | _ => false
  else if f.name = "ty" || f.name = "src" || f.name = "path" then
    match f.value with
    | .strVal _ => true
    | _ => false
  else if f.name = "dump" then
    match f.value with
    | .boolVal _ => true
    | _ => false
  else true

/-- When the field is `ty`, its string value is one of the six accepted
shader types. -/
def tyValueOk (f : RawField) : Bool :=
  if f.name = "ty" then
    match f.value with
    | .strVal s => decide (s ∈ tyStrings)
    | _ => true
  else true

/-- Declarative acceptance condition for the field loop relative to a
starting state: all names known, all values well-shaped, `ty` values valid,
and each single-occurrence constraint respected, counting an
already-populated component of the starting state as one occurrence. -/
def GoodFrom (st : ParseState) (fields : List RawField) : Prop :=
  (∀ f ∈ fields, f.name ∈ knownFieldNames) ∧
  (∀ f ∈ fields, valueShapeOk f = true) ∧
  (∀ f ∈ fields, tyValueOk f = true) ∧
  optCount st.modIdent + countName "mod_name" fields ≤ 1 ∧
  optCount st.shaderKind + countName "ty" fields ≤ 1 ∧
  optCount st.sourceKind + countName "src" fields + countName "path" fields ≤ 1 ∧
  optCount st.dump + countName "dump" fields ≤ 1

instance (st : ParseState) (fields : List RawField) : Decidable (GoodFrom st fields) := by
  unfold GoodFrom; infer_instance

/-- Declarative acceptance condition for `parseMacroInput`: every field name
drawn from the known set, every value well-shaped, every `ty` value valid,
exactly one `mod_name`, exactly one `ty`, exactly one source field
(`src` or `path`), and at most one `dump`. -/
def GoodInput (fields : List RawField) : Prop :=
  (∀ f ∈ fields, f.name ∈ knownFieldNames) ∧
  (∀ f ∈ fields, valueShapeOk f = true) ∧
  (∀ f ∈ fields, tyValueOk f = true) ∧
  countName "mod_name" fields = 1 ∧
  countName "ty" fields = 1 ∧
  countName "src" fields + countName "path" fields = 1 ∧
  countName "dump" fields ≤ 1

instance (fields : List RawField) : Decidable (GoodInput fields) := by
  unfold GoodInput; infer_instance

theorem countName_cons (n : String) (f : RawField) (rest : List RawField) :
    countName n (f :: rest) = (if f.name = n then 1 else 0) + countName n rest := by
  by_cases h : f.name = n <;> simp [countName, List.filter_cons, h, Nat.add_comm]

@[simp]
theorem countName_nil (n : String) : countName n [] = 0 := rfl

@[simp]
theorem optCount_le_one {α : Type} (o : Option α) : optCount o ≤ 1 := by
  unfold optCount; split <;> simp

@[simp]
theorem optCount_some {α : Type} (a : α) : optCount (some a) = 1 := rfl

@[simp]
theorem optCount_none {α : Type} : optCount (none : Option α) = 0 := rfl

theorem shaderKindOfTy_ok_iff (s : String) :
    (∃ k, shaderKindOfTy s = .ok k) ↔ s ∈ tyStrings := by
  unfold shaderKindOfTy tyStrings
  split_ifs with h1 h2 h3 h4 h5 h6 <;> simp_all

/-- The field loop succeeds from a given state exactly when the remaining
fields satisfy the declarative condition `GoodFrom`. -/
theorem parseFieldsFrom_ok_iff (fields : List RawField) :
    ∀ st : ParseState,
      (∃ st1, parseFieldsFrom st fields = .ok st1) ↔ GoodFrom st fields := by
  induction fields with
  | nil =>
    intro st
    simp [parseFieldsFrom, GoodFrom]
  | cons f rest ih =>
    intro st
    rw [show parseFieldsFrom st (f :: rest)
        = (match parseField st f with
           | .ok st1 => parseFieldsFrom st1 rest
           | .error e => .error e) from rfl]
    by_cases h1 : f.name = "mod_name"
    · cases hms : st.modIdent with
      | some v =>
        simp +decide [parseField, h1, hms]
        rintro ⟨_, _, _, hm, _, _, _⟩
        simp [countName_cons, h1, hms] at hm
      | none =>
        cases hv : f.value with
        | identVal s =>
          simp +decide [parseField, h1, hms, hv]
          rw [ih]
          simp +decide [GoodFrom, countName_cons, List.forall_mem_cons,
            valueShapeOk, tyValueOk, knownFieldNames, h1, hv, hms]
        | strVal s =>
          simp +decide [parseField, h1, hms, hv]
          rintro ⟨_, hshape, _⟩
          have := hshape f (List.mem_cons_self f rest)
          simp [valueShapeOk, h1, hv] at this
        | boolVal b =>
          simp +decide [parseField, h1, hms, hv]
          rintro ⟨_, hshape, _⟩
          have := hshape f (List.mem_cons_self f rest)
          simp [valueShapeOk, h1, hv] at this
    · by_cases h2 : f.name = "ty"
      · cases hks : st.shaderKind with
        | some v =>
          simp +decide [parseField, h1, h2, hks]
          rintro ⟨_, _, _, _, hm, _, _⟩
          simp [countName_cons, h2, hks] at hm
        | none =>
          cases hv : f.value with
          | identVal s =>
            simp +decide [parseField, h1, h2, hks, hv]
            rintro ⟨_, hshape, _⟩
            have := hshape f (List.mem_cons_self f rest)
            simp [valueShapeOk, h1, h2, hv] at this
          | strVal s =>
            cases hk : shaderKindOfTy s with
            | ok k =>
              have hs : s ∈ tyStrings := (shaderKindOfTy_ok_iff s).1 ⟨k, hk⟩
              simp +decide [parseField, h1, h2, hks, hv, hk]
              rw [ih]
              simp +decide [GoodFrom, countName_cons, List.forall_mem_cons,
                valueShapeOk, tyValueOk, knownFieldNames, h1, h2, hv, hks, hs]
            | error e =>
              have hs : s ∉ tyStrings := by
                intro hmem
                obtain ⟨k, hk2⟩ := (shaderKindOfTy_ok_iff s).2 hmem
                rw [hk2] at hk
                cases hk
              simp +decide [parseField, h1, h2, hks, hv, hk]
              rintro ⟨_, _, hty, _⟩
              have := hty f (List.mem_cons_self f rest)
              simp [tyValueOk, h2, hv, hs] at this
          | boolVal b =>
            simp +decide [parseField, h1, h2, hks, hv]
            rintro ⟨_, hshape, _⟩
            have := hshape f (List.mem_cons_self f rest)
            simp [valueShapeOk, h1, h2, hv] at this
      · by_cases h3 : f.name = "src"
        · cases hsk : st.sourceKind with
          | some v =>
            simp +decide [parseField, h1, h2, h3, hsk]
            rintro ⟨_, _, _, _, _, hm, _⟩
            simp [countName_cons, h3, hsk] at hm
            omega
          | none =>
            cases hv : f.value with
            | identVal s =>
              simp +decide [parseField, h1, h2, h3, hsk, hv]
              rintro ⟨_, hshape, _⟩
              have := hshape f (List.mem_cons_self f rest)
              simp [valueShapeOk, h1, h2, h3, hv] at this
            | strVal s =>
              simp +decide [parseField, h1, h2, h3, hsk, hv]
              rw [ih]
              simp +decide [GoodFrom, countName_cons, List.forall_mem_cons,
                valueShapeOk, tyValueOk, knownFieldNames, h1, h2, h3, hv, hsk]
            | boolVal b =>
              simp +decide [parseField, h1, h2, h3, hsk, hv]
              rintro ⟨_, hshape, _⟩
              have := hshape f (List.mem_cons_self f rest)
              simp [valueShapeOk, h1, h2, h3, hv] at this
        · by_cases h4 : f.name = "path"
          · cases hsk : st.sourceKind with
            | some v =>
              simp +decide [parseField, h1, h2, h3, h4, hsk]
              rintro ⟨_, _, _, _, _, hm, _⟩
              simp [countName_cons, h4, hsk] at hm
              omega
            | none =>
              cases hv : f.value with
              | identVal s =>
                simp +decide [parseField, h1, h2, h3, h4, hsk, hv]
                rintro ⟨_, hshape, _⟩
                have := hshape f (List.mem_cons_self f rest)
                simp [valueShapeOk, h1, h2, h3, h4, hv] at this
              | strVal s =>
                simp +decide [parseField, h1, h2, h3, h4, hsk, hv]
                rw [ih]
                simp +decide [GoodFrom, countName_cons, List.forall_mem_cons,
                  valueShapeOk, tyValueOk, knownFieldNames, h1, h2, h3, h4, hv, hsk]
                intros
                omega
              | boolVal b =>
                simp +decide [parseField, h1, h2, h3, h4, hsk, hv]
                rintro ⟨_, hshape, _⟩
                have := hshape f (List.mem_cons_self f rest)
                simp [valueShapeOk, h1, h2, h3, h4, hv] at this
          · by_cases h5 : f.name = "dump"
            · cases hd : st.dump with
              | some v =>
                simp +decide [parseField, h1, h2, h3, h4, h5, hd]
                rintro ⟨_, _, _, _, _, _, hm⟩
                simp [countName_cons, h5, hd] at hm
              | none =>
                cases hv : f.value with
                | identVal s =>
                  simp +decide [parseField, h1, h2, h3, h4, h5, hd, hv]
                  rintro ⟨_, hshape, _⟩
                  have := hshape f (List.mem_cons_self f rest)
                  simp [valueShapeOk, h1, h2, h3, h4, h5, hv] at this
                | strVal s =>
                  simp +decide [parseField, h1, h2, h3, h4, h5, hd, hv]
                  rintro ⟨_, hshape, _⟩
                  have := hshape f (List.mem_cons_self f rest)
                  simp [valueShapeOk, h1, h2, h3, h4, h5, hv] at this
                | boolVal b =>
                  simp +decide [parseField, h1, h2, h3, h4, h5, hd, hv]
                  rw [ih]
                  simp +decide [GoodFrom, countName_cons, List.forall_mem_cons,
                    valueShapeOk, tyValueOk, knownFieldNames, h1, h2, h3, h4, h5, hv, hd]
            · simp +decide [parseField, h1, h2, h3, h4, h5]
              rintro ⟨hmem, _⟩
              have := hmem f (List.mem_cons_self f rest)
              simp [knownFieldNames, h1, h2, h3, h4, h5] at this

/-- Inversion for a successful `parseField` step: the five ways a field can
be recorded. -/
theorem parseField_ok_cases (st : ParseState) (f : RawField) (st1 : ParseState)
    (h : parseField st f = .ok st1) :
    (f.name = "mod_name" ∧ st.modIdent = none ∧
      ∃ s, f.value = .identVal s ∧ st1 = { st with modIdent := some s }) ∨
    (f.name = "ty" ∧ st.shaderKind = none ∧
      ∃ s k, f.value = .strVal s ∧ shaderKindOfTy s = .ok k ∧
        st1 = { st with shaderKind := some k }) ∨
    (f.name = "src" ∧ st.sourceKind = none ∧
      ∃ s, f.value = .strVal s ∧ st1 = { st with sourceKind := some (.src s) }) ∨
    (f.name = "path" ∧ st.sourceKind = none ∧
      ∃ s, f.value = .strVal s ∧ st1 = { st with sourceKind := some (.path s) }) ∨
    (f.name = "dump" ∧ st.dump = none ∧
      ∃ b, f.value = .boolVal b ∧ st1 = { st with dump := some b }) := by
  by_cases h1 : f.name = "mod_name"
  · cases hm : st.modIdent with
    | some v => simp [parseField, h1, hm] at h
    | none =>
      cases hv : f.value with
      | identVal s =>
        simp [parseField, h1, hm, hv] at h
        exact Or.inl ⟨h1, rfl, s, rfl, h.symm⟩
      | strVal s => simp [parseField, h1, hm, hv] at h
      | boolVal b => simp [parseField, h1, hm, hv] at h
  · by_cases h2 : f.name = "ty"
    · cases hk : st.shaderKind with
      | some v => simp [parseField, h1, h2, hk] at h
      | none =>
        cases hv : f.value with
        | identVal s => simp [parseField, h1, h2, hk, hv] at h
        | strVal s =>
          cases hks : shaderKindOfTy s with
          | ok k =>
            simp [parseField, h1, h2, hk, hv, hks] at h
            exact Or.inr (Or.inl ⟨h2, rfl, s, k, rfl, hks, h.symm⟩)
          | error e => simp [parseField, h1, h2, hk, hv, hks] at h
        | boolVal b => simp [parseField, h1, h2, hk, hv] at h
    · by_cases h3 : f.name = "src"
      · cases hs : st.sourceKind with
        | some v => simp [parseField, h1, h2, h3, hs] at h
        | none =>
          cases hv : f.value with
          | identVal s => simp [parseField, h1, h2, h3, hs, hv] at h
          | strVal s =>
            simp [parseField, h1, h2, h3, hs, hv] at h
            exact Or.inr (Or.inr (Or.inl ⟨h3, rfl, s, rfl, h.symm⟩))
          | boolVal b => simp [parseField, h1, h2, h3, hs, hv] at h
      · by_cases h4 : f.name = "path"
        · cases hs : st.sourceKind with
          | some v => simp [parseField, h1, h2, h3, h4, hs] at h
          | none =>
            cases hv : f.value with
            | identVal s => simp [parseField, h1, h2, h3, h4, hs, hv] at h
            | strVal s =>
              simp [parseField, h1, h2, h3, h4, hs, hv] at h
              exact Or.inr (Or.inr (Or.inr (Or.inl ⟨h4, rfl, s, rfl, h.symm⟩)))
            | boolVal b => simp [parseField, h1, h2, h3, h4, hs, hv] at h
        · by_cases h5 : f.name = "dump"
          · cases hd : st.dump with
            | some v => simp [parseField, h1, h2, h3, h4, h5, hd] at h
            | none =>
              cases hv : f.value with
              | identVal s => simp [parseField, h1, h2, h3, h4, h5, hd, hv] at h
              | strVal s => simp [parseField, h1, h2, h3, h4, h5, hd, hv] at h
              | boolVal b =>
                simp [parseField, h1, h2, h3, h4, h5, hd, hv] at h
                exact Or.inr (Or.inr (Or.inr (Or.inr ⟨h5, rfl, b, rfl, h.symm⟩)))
          · simp [parseField, h1, h2, h3, h4, h5] at h

/-- The step `parseField` returns the non-panic error `parseFailed` only when the
field's value has the wrong syntactic shape. -/
theorem parseField_parseFailed_shape (st : ParseState) (f : RawField)
    (h : parseField st f = .error .parseFailed) : valueShapeOk f = false := by
  by_cases h1 : f.name = "mod_name"
  · cases hm : st.modIdent <;> cases hv : f.value <;>
      simp_all [parseField, valueShapeOk, h1]
  · by_cases h2 : f.name = "ty"
    · cases hk : st.shaderKind with
      | some v => cases hv : f.value <;> simp_all [parseField, valueShapeOk, h1, h2]
      | none =>
        cases hv : f.value with
        | identVal s => simp_all [parseField, valueShapeOk, h1, h2]
        | boolVal b => simp_all [parseField, valueShapeOk, h1, h2]
        | strVal s =>
          cases hks : shaderKindOfTy s with
          | ok k => simp_all [parseField]
          | error e =>
            have hpanic : e = .panicked tyPanicMessage := by
              unfold shaderKindOfTy at hks
              split_ifs at hks
              simp_all
            simp_all [parseField]
    · by_cases h3 : f.name = "src"
      · cases hs : st.sourceKind <;> cases hv : f.value <;>
          simp_all [parseField, valueShapeOk, h1, h2, h3]
      · by_cases h4 : f.name = "path"
        · cases hs : st.sourceKind <;> cases hv : f.value <;>
            simp_all [parseField, valueShapeOk, h1, h2, h3, h4]
        · by_cases h5 : f.name = "dump"
          · cases hd : st.dump <;> cases hv : f.value <;>
              simp_all [parseField, valueShapeOk, h1, h2, h3, h4, h5]
          · simp_all [parseField, h1, h2, h3, h4, h5]

/-- Every failure of the field loop on well-shaped values is a panic. -/
theorem parseFieldsFrom_error_panicked (fields : List RawField) :
    ∀ (st : ParseState) (e : SynError), parseFieldsFrom st fields = .error e →
      (∀ f ∈ fields, valueShapeOk f = true) → ∃ msg, e = .panicked msg := by
  induction fields with
  | nil => intro st e h _; simp [parseFieldsFrom] at h
  | cons f rest ih =>
    intro st e h hsh
    rw [show parseFieldsFrom st (f :: rest)
        = (match parseField st f with
           | .ok st1 => parseFieldsFrom st1 rest
           | .error e => .error e) from rfl] at h
    cases hp : parseField st f with
    | ok st1 =>
      rw [hp] at h
      exact ih st1 e h (fun g hg => hsh g (List.mem_cons_of_mem f hg))
    | error e1 =>
      rw [hp] at h
      simp only [Except.error.injEq] at h
      subst h
      cases e1 with
      | panicked msg => exact ⟨msg, rfl⟩
      | parseFailed =>
        have := parseField_parseFailed_shape st f hp
        have h2 := hsh f (List.mem_cons_self f rest)
        rw [h2] at this
        cases this

/-- State tracking through a successful field loop: which components end up
populated, and that `dump` is untouched when no `dump` field occurs. -/
theorem parseFieldsFrom_ok_state (fields : List RawField) :
    ∀ st st1 : ParseState, parseFieldsFrom st fields = .ok st1 →
      (st1.modIdent.isSome ↔ st.modIdent.isSome ∨ 0 < countName "mod_name" fields) ∧
      (st1.shaderKind.isSome ↔ st.shaderKind.isSome ∨ 0 < countName "ty" fields) ∧
      (st1.sourceKind.isSome ↔ st.sourceKind.isSome ∨
        0 < countName "src" fields + countName "path" fields) ∧
      (countName "dump" fields = 0 → st1.dump = st.dump) := by
  induction fields with
  | nil =>
    intro st st1 h
    simp [parseFieldsFrom] at h
    subst h
    simp
  | cons f rest ih =>
    intro st st1 h
    rw [show parseFieldsFrom st (f :: rest)
        = (match parseField st f with
           | .ok st1 => parseFieldsFrom st1 rest
           | .error e => .error e) from rfl] at h
    cases hp : parseField st f with
    | error e1 => rw [hp] at h; simp at h
    | ok stm =>
      rw [hp] at h
      have hrec := ih stm st1 h
      rcases parseField_ok_cases st f stm hp with
        ⟨hn, hflag, s, hv, hst⟩ | ⟨hn, hflag, s, k, hv, hks, hst⟩ |
        ⟨hn, hflag, s, hv, hst⟩ | ⟨hn, hflag, s, hv, hst⟩ | ⟨hn, hflag, b, hv, hst⟩ <;>
        subst hst <;>
        simp +decide [countName_cons, hn, hflag] at hrec ⊢ <;>
        simp [hrec] <;>
        tauto

/-- The check `finishInput` succeeds exactly when the three required components are
populated. -/
theorem finishInput_ok_iff (st : ParseState) :
    (∃ mi, finishInput st = .ok mi) ↔
      st.shaderKind.isSome = true ∧ st.sourceKind.isSome = true ∧
        st.modIdent.isSome = true := by
  cases hk : st.shaderKind <;> cases hs : st.sourceKind <;> cases hm : st.modIdent <;>
    simp [finishInput, hk, hs, hm]

/-- On success, `finishInput` reads `dump` off the state with default
`false`. -/
theorem finishInput_ok_dump (st : ParseState) (mi : MacroInput)
    (h : finishInput st = .ok mi) : mi.dump = st.dump.getD false := by
  cases hk : st.shaderKind <;> cases hs : st.sourceKind <;> cases hm : st.modIdent <;>
    simp [finishInput, hk, hs, hm] at h
  rw [← h]

/-- Every failure of `finishInput` is a panic. -/
theorem finishInput_error_panicked (st : ParseState) (e : SynError)
    (h : finishInput st = .error e) : ∃ msg, e = .panicked msg := by
  cases hk : st.shaderKind <;> cases hs : st.sourceKind <;> cases hm : st.modIdent <;>
    simp [finishInput, hk, hs, hm] at h <;> exact ⟨_, h.symm⟩

/-- Full acceptance characterisation of `MacroInput::parse`: it returns
`Ok` exactly on inputs satisfying the declarative `GoodInput` condition. -/
theorem parseMacroInput_ok_iff (fields : List RawField) :
    (∃ mi, parseMacroInput fields = .ok mi) ↔ GoodInput fields := by
  constructor
  · rintro ⟨mi, hmi⟩
    unfold parseMacroInput at hmi
    cases hfold : parseFieldsFrom ⟨none, none, none, none⟩ fields with
    | error e => rw [hfold] at hmi; cases hmi
    | ok st =>
      rw [hfold] at hmi
      have hgood : GoodFrom ⟨none, none, none, none⟩ fields :=
        (parseFieldsFrom_ok_iff fields _).1 ⟨st, hfold⟩
      have hstate := parseFieldsFrom_ok_state fields _ st hfold
      have hfin := (finishInput_ok_iff st).1 ⟨mi, hmi⟩
      obtain ⟨g1, g2, g3, g4, g5, g6, g7⟩ := hgood
      simp [optCount] at g4 g5 g6 g7
      obtain ⟨s1, s2, s3, _⟩ := hstate
      rw [s2] at hfin
      rw [s3] at hfin
      rw [s1] at hfin
      simp at hfin
      exact ⟨g1, g2, g3, by omega, by omega, by omega, by omega⟩
  · rintro ⟨g1, g2, g3, g4, g5, g6, g7⟩
    have hgood : GoodFrom ⟨none, none, none, none⟩ fields := by
      exact ⟨g1, g2, g3, by simp [optCount]; omega, by simp [optCount]; omega,
        by simp [optCount]; omega, by simp [optCount]; omega⟩
    obtain ⟨st, hfold⟩ := (parseFieldsFrom_ok_iff fields _).2 hgood
    have hstate := parseFieldsFrom_ok_state fields _ st hfold
    obtain ⟨s1, s2, s3, _⟩ := hstate
    simp at s1 s2 s3
    obtain ⟨mi, hmi⟩ := (finishInput_ok_iff st).2
      ⟨s2.2 (by omega), s3.2 (by omega), s1.2 (by omega)⟩
    refine ⟨mi, ?_⟩
    unfold parseMacroInput
    rw [hfold]
    exact hmi

/-- With well-shaped field values, every failure of `MacroInput::parse` is
a panic (never a plain `syn` error). -/
theorem parseMacroInput_error_panicked (fields : List RawField) (e : SynError)
    (hsh : ∀ f ∈ fields, valueShapeOk f = true)
    (h : parseMacroInput fields = .error e) : ∃ msg, e = .panicked msg := by
  unfold parseMacroInput at h
  cases hfold : parseFieldsFrom ⟨none, none, none, none⟩ fields with
  | error e1 =>
    rw [hfold] at h
    simp only [Except.error.injEq] at h
    subst h
    exact parseFieldsFrom_error_panicked fields _ e1 hfold hsh
  | ok st =>
    rw [hfold] at h
    exact finishInput_error_panicked st e h

/-- When the invocation has no `dump` field, the parsed input's `dump` flag
is `false`. -/
theorem parseMacroInput_dump_default (fields : List RawField) (mi : MacroInput)
    (h : parseMacroInput fields = .ok mi) (hnd : countName "dump" fields = 0) :
    mi.dump = false := by
  unfold parseMacroInput at h
  cases hfold : parseFieldsFrom ⟨none, none, none, none⟩ fields with
  | error e => rw [hfold] at h; cases h
  | ok st =>
    rw [hfold] at h
    have hstate := parseFieldsFrom_ok_state fields _ st hfold
    have hdump : st.dump = none := hstate.2.2.2 hnd
    rw [finishInput_ok_dump st mi h, hdump]
    rfl

/-- The SPIR-V words of a compiled module (`content.as_binary()` in
lib.rs:305). -/
def SpirvBinary : Type := List Nat

/-- The Rust token stream the macro expands to. -/
def TokenStream : Type := String

/-- The two functions of the `codegen` submodule that `vulkano_shader`
calls (lib.rs:304-305).  Their implementations live in
`vulkano-shaders/src/codegen.rs`, outside this tree, so they are abstracted
here as parameters: `compile source kind` is the external GLSL-to-SPIR-V
compiler invocation and `reflect name binary modIdent dump` is the
reflection backend. -/
structure Codegen where
  compile : String → ShaderKind → Except String SpirvBinary
  reflect : String → SpirvBinary → String → Bool → Except String TokenStream

/-- The build environment the macro observes when resolving a `path`
source: the `CARGO_MANIFEST_DIR` variable, the `is_file` test and the file
reader (lib.rs:289-300).  A `readFile` error carries the `Debug` rendering
of the underlying `std::io::Error`. -/
structure BuildEnv where
  manifestDir : Option String
  isFile : String → Bool
  readFile : String → Except String String

/-- Model of `Path::new(&root).join(&path)`. -/
def pathJoin (root p : String) : String := root ++ "/" ++ p

/-- The `Debug` rendering of a Rust string (as in `format!("{:?}", path)`):
modelled as quoting. -/
def debugQuote (s : String) : String := "\"" ++ s ++ "\""

/-- The panic message of `Result::unwrap` on `Err(e)`: the `Debug`
rendering of `e` appended to a fixed prefix. -/
def unwrapPanicMsg (e : String) : String :=
  "called `Result::unwrap()` on an `Err` value: " ++ e

/-- The panic message of `Result::expect(msg)` on `Err(e)`: the custom
message, a separator, then the `Debug` rendering of `e`. -/
def expectPanicMsg (msg e : String) : String := msg ++ ": " ++ e

/-- The `match input.source_kind` block of `vulkano_shader`
(lib.rs:286-302): a `src` field is used verbatim; a `path` field is joined
to the manifest dir (default `"."`), checked with `is_file`, and read, with
`expect` surfacing a read error and a dedicated panic for a missing
file. -/
def readShaderSource (env : BuildEnv) : SourceKind → Except SynError String
  | .src source => .ok source
  | .path p =>
    let root := env.manifestDir.getD "."
    let fullPath := pathJoin root p
    if env.isFile fullPath then
      match env.readFile fullPath with
      | .ok buf => .ok buf
      | .error e =>
        .error (.panicked (expectPanicMsg ("Error reading source from " ++ debugQuote p) e))
    else
      .error (.panicked ("File " ++ debugQuote p ++
        " was not found ; note that the path must be relative to your Cargo.toml"))

/-- The last two lines of `vulkano_shader` (lib.rs:304-305): compile the
source for the declared kind, unwrap, reflect the binary under the fixed
name `"Shader"` with the module identifier and dump flag, unwrap.  Both
`unwrap`s turn an `Err` into a panic carrying the error's rendering. -/
def expandFromSource (cg : Codegen) (sourceCode : String) (kind : ShaderKind)
    (modIdent : String) (dump : Bool) : Except SynError TokenStream :=
  match cg.compile sourceCode kind with
  | .error e => .error (.panicked (unwrapPanicMsg e))
  | .ok content =>
    match cg.reflect "Shader" content modIdent dump with
    | .error e => .error (.panicked (unwrapPanicMsg e))
    | .ok ts => .ok ts

/-- The whole `vulkano_shader` proc-macro body (lib.rs:282-306): parse the
macro input, obtain the GLSL source, compile, reflect. -/
def vulkanoShader (cg : Codegen) (env : BuildEnv) (fields : List RawField) :
    Except SynError TokenStream :=
  match parseMacroInput fields with
  | .error e => .error e
  | .ok input =>
    match readShaderSource env input.sourceKind with
    | .error e => .error e
    | .ok sourceCode =>
      expandFromSource cg sourceCode input.shaderKind input.modIdent input.dump

/-- Proposition that `msg` contains `d` verbatim as a substring. -/
def ContainsDiagnostic (msg d : String) : Prop :=
  ∃ pre post, msg = pre ++ d ++ post

theorem unwrapPanicMsg_contains (e : String) :
    ContainsDiagnostic (unwrapPanicMsg e) e :=
  ⟨"called `Result::unwrap()` on an `Err` value: ", "", by
    simp [unwrapPanicMsg]⟩

theorem expectPanicMsg_contains (msg e : String) :
    ContainsDiagnostic (expectPanicMsg msg e) e :=
  ⟨msg ++ ": ", "", by simp [expectPanicMsg]⟩

/-- An interface element declared by the instruction stream of a compiled
SPIR-V module: the five kinds of interface the reflector recovers. -/
inductive InterfaceElem
  | inputVar (location : Nat) (ty : String)
  | outputVar (location : Nat) (ty : String)
  | descriptorBinding (set binding : Nat) (descTy : String)
  | pushConstantRange (offsetBytes sizeBytes : Nat)
  | specConstant (constantId : Nat) (ty : String)
  deriving DecidableEq, Repr

/-- A compiled binary shader module, reduced to the interface elements its
instruction stream declares. -/
structure BinaryModule where
  elements : List InterfaceElem
  deriving DecidableEq, Repr

/-- One item of the generated glue code. -/
inductive GlueItem
  | entryPointInput (location : Nat) (ty : String)
  | entryPointOutput (location : Nat) (ty : String)
  | layoutBinding (set binding : Nat) (descTy : String)
  | layoutPushConstant (offsetBytes sizeBytes : Nat)
  | specConstantField (constantId : Nat) (ty : String)
  deriving DecidableEq, Repr

/-- The glue item describing a given interface element. -/
def glueFor : InterfaceElem → GlueItem
  | .inputVar l t => .entryPointInput l t
  | .outputVar l t => .entryPointOutput l t
  | .descriptorBinding s b t => .layoutBinding s b t
  | .pushConstantRange o s => .layoutPushConstant o s
  | .specConstant i t => .specConstantField i t

/-- Modelled from the spec: `codegen::reflect`, whose implementation
(`vulkano-shaders/src/codegen.rs` and the submodules it drives) is not
under this tree.  Per the spec, "the generated glue matches whatever the
binary module says": the reflector walks the module's instruction stream
and emits the glue item describing each declared interface element. -/
def reflectGlue (m : BinaryModule) : List GlueItem :=
  m.elements.map glueFor

theorem glueFor_injective : Function.Injective glueFor := by
  intro a b h
  cases a <;> cases b <;> simp [glueFor] at h <;> simp_all

/-- The `mod` declarations of the shader crate (lib.rs:170-177). -/
def shaderCrateModules : List String :=
  ["codegen", "descriptor_sets", "entry_point", "enums", "parse",
   "spec_consts", "structs", "spirv_search"]

/-- What kind of work a module of the shader crate performs. -/
inductive ModuleWork
  | spirvReflection
  | glueEmission
  | otherWork
  deriving DecidableEq, Repr

/-- Modelled from the spec: the role of each shader-crate submodule.  The
submodule bodies are not under this tree; the spec states that the hard
logic "is confined to parsing the compiled shader's binary module to
recover its interface ... and re-emitting that as statically-typed glue".
`parse`, `enums` and `spirv_search` walk the binary module;
`codegen`, `descriptor_sets`, `entry_point`, `spec_consts` and `structs`
emit the typed glue for it. -/
def moduleWork (m : String) : ModuleWork :=
  if m = "parse" ∨ m = "enums" ∨ m = "spirv_search" then .spirvReflection
  else if m = "codegen" ∨ m = "descriptor_sets" ∨ m = "entry_point" ∨
      m = "spec_consts" ∨ m = "structs" then .glueEmission
  else .otherWork

/-- Result of `Swapchain::recreate_with_dimension` as observed by the match
at triangle.rs:154-160. -/
inductive RecreateResult
  | success
  | unsupportedDimensions
  | otherError
  deriving DecidableEq, Repr

/-- Result of `swapchain::acquire_next_image` as observed by the match at
triangle.rs:179-187. -/
inductive AcquireResult
  | success (imageNum : Nat)
  | outOfDate
  | otherError
  deriving DecidableEq, Repr

/-- What the native API and the window system return during one loop
iteration. -/
structure ApiIter where
  innerSize : Nat × Nat
  recreate : RecreateResult
  acquire : AcquireResult
  closedEvent : Bool
  deriving DecidableEq, Repr

/-- The state the triangle example itself maintains across loop iterations
(triangle.rs:48, 139-141): the cached dimensions, the `recreate_swapchain`
flag, and whether the `framebuffers` option is populated. -/
structure LoopState where
  dimensions : Nat × Nat
  recreateSwapchain : Bool
  framebuffersPresent : Bool
  deriving DecidableEq, Repr

/-- The observable operations (native-API and windowing calls) one loop
iteration can perform, in program order. -/
inductive TriOp
  | cleanupFinished
  | getInnerSize
  | recreateSwapchainCall
  | createFramebuffers
  | acquireNextImage
  | beginRenderPass
  | recordDraws
  | endRenderPassCall
  | buildCommandBuffer
  | joinWithAcquireFuture
  | thenExecuteCmd
  | presentCall
  | fenceFlushCall
  | pollEvents
  deriving DecidableEq, Repr

/-- How one loop iteration ends. -/
inductive IterOutcome
  | continueLoop
  | nextFrame
  | exitProgram
  | panicExit
  deriving DecidableEq, Repr

/-- The fixed tail of a successful iteration: acquire, record the command
buffer (triangle.rs:189-227), chain and flush the frame future
(triangle.rs:229-234), poll events (triangle.rs:237-242). -/
def renderOps : List TriOp :=
  [.acquireNextImage, .beginRenderPass, .recordDraws, .endRenderPassCall,
   .buildCommandBuffer, .joinWithAcquireFuture, .thenExecuteCmd,
   .presentCall, .fenceFlushCall, .pollEvents]

/-- The part of the iteration from the `framebuffers.is_none()` check
(triangle.rs:170) onwards. -/
def framebufferAndRender (ops : List TriOp) (st : LoopState) (api : ApiIter) :
    List TriOp × LoopState × IterOutcome :=
  let p := if st.framebuffersPresent then (ops, st)
    else (ops ++ [TriOp.createFramebuffers], { st with framebuffersPresent := true })
  match p with
  | (ops1, st1) =>
    match api.acquire with
    | .outOfDate =>
      (ops1 ++ [TriOp.acquireNextImage], { st1 with recreateSwapchain := true },
        .continueLoop)
    | .otherError => (ops1 ++ [TriOp.acquireNextImage], st1, .panicExit)
    | .success _ =>
      (ops1 ++ renderOps, st1,
        if api.closedEvent then .exitProgram else .nextFrame)

/-- One iteration of the triangle example's render loop
(triangle.rs:145-244): cleanup, the `recreate_swapchain` block
(triangle.rs:148-168), the framebuffer block, image acquisition, command
recording, the frame-future chain, and event polling. -/
def loopIter (st : LoopState) (api : ApiIter) :
    List TriOp × LoopState × IterOutcome :=
  let ops0 := [TriOp.cleanupFinished]
  if st.recreateSwapchain then
    let st1 := { st with dimensions := api.innerSize }
    let ops1 := ops0 ++ [TriOp.getInnerSize, TriOp.recreateSwapchainCall]
    match api.recreate with
    | .unsupportedDimensions => (ops1, st1, .continueLoop)
    | .otherError => (ops1, st1, .panicExit)
    | .success =>
      framebufferAndRender ops1
        { st1 with framebuffersPresent := false, recreateSwapchain := false } api
  else framebufferAndRender ops0 st api

/-- The `GpuFuture` combinator chain the triangle example can build:
the native combinators of `vulkano::sync` used at triangle.rs:229-234,
plus two constructors for hand-rolled synchronisation (locks, atomic
spinning) that the program never uses — present in the model so their
absence is expressible. -/
inductive FrameFuture
  | now
  | swapchainAcquireFuture
  | join (a b : FrameFuture)
  | thenExecute (prev : FrameFuture)
  | thenSwapchainPresent (prev : FrameFuture)
  | thenSignalFenceAndFlush (prev : FrameFuture)
  | lockMutex (prev : FrameFuture)
  | atomicSpin (prev : FrameFuture)
  deriving DecidableEq, Repr

/-- The chain built each frame at triangle.rs:229-234:
`previous_frame_end.join(acquire_future).then_execute(queue, cb)
.then_swapchain_present(queue, swapchain, image_num)
.then_signal_fence_and_flush()`. -/
def frameFuture (previousFrameEnd : FrameFuture) : FrameFuture :=
  .thenSignalFenceAndFlush (.thenSwapchainPresent (.thenExecute
    (.join previousFrameEnd .swapchainAcquireFuture)))

/-- The chain is made of native primitives only: no lock, no atomic. -/
def usesOnlyNativeSync : FrameFuture → Bool
  | .now => true
  | .swapchainAcquireFuture => true
  | .join a b => usesOnlyNativeSync a && usesOnlyNativeSync b
  | .thenExecute p => usesOnlyNativeSync p
  | .thenSwapchainPresent p => usesOnlyNativeSync p
  | .thenSignalFenceAndFlush p => usesOnlyNativeSync p
  | .lockMutex _ => false
  | .atomicSpin _ => false

/-- The ordering constraints a chain expresses, innermost first. -/
inductive SyncStage
  | acquireImage
  | executeCommands
  | presentImage
  | signalFence
  | foreignSync
  deriving DecidableEq, Repr

/-- The sequence of synchronisation stages a chain orders, left to
right. -/
def stageTrace : FrameFuture → List SyncStage
  | .now => []
  | .swapchainAcquireFuture => [.acquireImage]
  | .join a b => stageTrace a ++ stageTrace b
  | .thenExecute p => stageTrace p ++ [.executeCommands]
  | .thenSwapchainPresent p => stageTrace p ++ [.presentImage]
  | .thenSignalFenceAndFlush p => stageTrace p ++ [.signalFence]
  | .lockMutex p => stageTrace p ++ [.foreignSync]
  | .atomicSpin p => stageTrace p ++ [.foreignSync]

/-- C8's acceptance rule exactly as the claim words it: a sequence of
`name: value` fields drawn from the known set, each field name occurring at
most once, at most one of `src`/`path`, and `ty`, a source and `mod_name`
all occurring.  (The claim places no condition on the values.) -/
def ClaimedAcceptRule (fields : List RawField) : Prop :=
  (∀ f ∈ fields, f.name ∈ knownFieldNames) ∧
  (fields.map RawField.name).Nodup ∧
  countName "src" fields + countName "path" fields ≤ 1 ∧
  1 ≤ countName "ty" fields ∧
  1 ≤ countName "src" fields + countName "path" fields ∧
  1 ≤ countName "mod_name" fields

instance (fields : List RawField) : Decidable (ClaimedAcceptRule fields) := by
  unfold ClaimedAcceptRule; infer_instance

theorem countName_eq_count (n : String) (fields : List RawField) :
    countName n fields = (fields.map RawField.name).count n := by
  induction fields with
  | nil => rfl
  | cons f rest ih =>
    rw [countName_cons, ih]
    by_cases h : f.name = n <;>
      simp [h, List.count_cons, Nat.add_comm]

theorem countName_zero_of_unknown (n : String) (fields : List RawField)
    (hall : ∀ f ∈ fields, f.name ∈ knownFieldNames) (hn : n ∉ knownFieldNames) :
    countName n fields = 0 := by
  induction fields with
  | nil => rfl
  | cons f rest ih =>
    rw [countName_cons]
    have h1 : f.name ≠ n := by
      intro he
      exact hn (he ▸ hall f (List.mem_cons_self f rest))
    rw [if_neg h1, ih (fun g hg => hall g (List.mem_cons_of_mem f hg))]

/-- The predicate `GoodInput` is the claim's acceptance rule strengthened by exactly the
two value conditions the counterexample forces: well-shaped values and a
valid `ty` string. -/
theorem goodInput_iff_claim (fields : List RawField) :
    GoodInput fields ↔
      (ClaimedAcceptRule fields ∧ (∀ f ∈ fields, valueShapeOk f = true) ∧
        (∀ f ∈ fields, tyValueOk f = true)) := by
  constructor
  · rintro ⟨g1, g2, g3, g4, g5, g6, g7⟩
    refine ⟨⟨g1, ?_, by omega, by omega, by omega, by omega⟩, g2, g3⟩
    rw [List.nodup_iff_count_le_one]
    intro n
    rw [← countName_eq_count]
    by_cases hn : n ∈ knownFieldNames
    · simp [knownFieldNames] at hn
      rcases hn with rfl | rfl | rfl | rfl | rfl <;> omega
    · rw [countName_zero_of_unknown n fields g1 hn]
      omega
  · rintro ⟨⟨c1, c2, c3, c4, c5, c6⟩, hsh, hty⟩
    have hcount : ∀ n, countName n fields ≤ 1 := by
      intro n
      rw [countName_eq_count]
      exact List.nodup_iff_count_le_one.1 c2 n
    have hm := hcount "mod_name"
    have ht := hcount "ty"
    exact ⟨c1, hsh, hty, by omega, by omega, by omega, hcount "dump"⟩

/-- The concrete input refuting C8 as stated: all field names known and
unduplicated, one source, `ty`/source/`mod_name` all present — yet parsing
panics, because the `ty` value `"weird"` is not a valid shader type. -/
def c8BadFields : List RawField :=
  [⟨"mod_name", .identVal "fs"⟩, ⟨"ty", .strVal "weird"⟩,
   ⟨"src", .strVal "shader body"⟩]

/-- C8 counterexample: `c8BadFields` satisfies every condition the claim
lists (names drawn from the known set, no duplicate, one source, all
required fields present), yet `MacroInput::parse` does not return `Ok` —
it panics on the unknown shader type — so "returns Ok exactly when" fails
in the only-if-missing direction. -/
theorem c8_counterexample :
    ClaimedAcceptRule c8BadFields ∧
      parseMacroInput c8BadFields = .error (.panicked tyPanicMessage) := by
  exact ⟨by decide, rfl⟩

/-- C8 (amended): `MacroInput::parse` returns `Ok` exactly when the claim's
conditions hold and additionally every field value has the syntactic shape
its name expects and every `ty` value is one of the six valid strings;
with well-shaped values every rejection is a panic; and when `dump` is
omitted it defaults to `false`. -/
theorem c8_parse_acceptance (fields : List RawField) :
    ((∃ mi, parseMacroInput fields = .ok mi) ↔
      (ClaimedAcceptRule fields ∧ (∀ f ∈ fields, valueShapeOk f = true) ∧
        (∀ f ∈ fields, tyValueOk f = true))) ∧
    (∀ e, (∀ f ∈ fields, valueShapeOk f = true) →
      parseMacroInput fields = .error e → ∃ msg, e = .panicked msg) ∧
    (∀ mi, parseMacroInput fields = .ok mi → countName "dump" fields = 0 →
      mi.dump = false) :=
  ⟨(parseMacroInput_ok_iff fields).trans (goodInput_iff_claim fields),
   fun e hsh h => parseMacroInput_error_panicked fields e hsh h,
   fun mi h hnd => parseMacroInput_dump_default fields mi h hnd⟩

/-- Witness for `c8_parse_acceptance`: a concrete accepted invocation. -/
theorem c8_parse_acceptance_witness :
    ∃ mi, parseMacroInput
      [⟨"mod_name", .identVal "vs"⟩, ⟨"ty", .strVal "vertex"⟩,
       ⟨"src", .strVal "shader body"⟩] = .ok mi :=
  (c8_parse_acceptance _).1.2 (by decide)

/-- C9: the `ty` string is mapped to a shader kind by the exact, total
correspondence of lib.rs:219-227 — the six valid strings map to their
kinds, and every other string panics with the message listing the six
valid values (each valid value occurs verbatim in that message). -/
theorem c9_ty_mapping :
    shaderKindOfTy "vertex" = .ok .vertex ∧
    shaderKindOfTy "fragment" = .ok .fragment ∧
    shaderKindOfTy "geometry" = .ok .geometry ∧
    shaderKindOfTy "tess_ctrl" = .ok .tessControl ∧
    shaderKindOfTy "tess_eval" = .ok .tessEvaluation ∧
    shaderKindOfTy "compute" = .ok .compute ∧
    (∀ s, s ∉ tyStrings → shaderKindOfTy s = .error (.panicked tyPanicMessage)) ∧
    (∀ v ∈ tyStrings, ContainsDiagnostic tyPanicMessage v) := by
  refine ⟨rfl, rfl, rfl, rfl, rfl, rfl, ?_, ?_⟩
  · intro s hs
    simp [tyStrings] at hs
    obtain ⟨n1, n2, n3, n4, n5, n6⟩ := hs
    simp [shaderKindOfTy, n1, n2, n3, n4, n5, n6]
  · intro v hv
    simp [tyStrings] at hv
    rcases hv with rfl | rfl | rfl | rfl | rfl | rfl
    · exact ⟨"Unexpected shader type, valid values: ",
        ", fragment, geometry, tess_ctrl, tess_eval, compute", by decide⟩
    · exact ⟨"Unexpected shader type, valid values: vertex, ",
        ", geometry, tess_ctrl, tess_eval, compute", by decide⟩
    · exact ⟨"Unexpected shader type, valid values: vertex, fragment, ",
        ", tess_ctrl, tess_eval, compute", by decide⟩
    · exact ⟨"Unexpected shader type, valid values: vertex, fragment, geometry, ",
        ", tess_eval, compute", by decide⟩
    · exact ⟨"Unexpected shader type, valid values: vertex, fragment, geometry, tess_ctrl, ",
        ", compute", by decide⟩
    · exact ⟨"Unexpected shader type, valid values: vertex, fragment, geometry, tess_ctrl, tess_eval, ",
        "", by decide⟩

/-- Witness for `c9_ty_mapping`: the universally quantified clauses at a
concrete invalid string and a concrete valid value. -/
theorem c9_ty_mapping_witness :
    shaderKindOfTy "normal" = .error (.panicked tyPanicMessage) ∧
      ContainsDiagnostic tyPanicMessage "vertex" :=
  ⟨c9_ty_mapping.2.2.2.2.2.2.1 "normal" (by decide),
   c9_ty_mapping.2.2.2.2.2.2.2 "vertex" (by decide)⟩

/-- C1: the macro body is exactly the pipeline "obtain source, compile for
the declared kind, reflect the binary": once the source text is resolved,
expansion equals `expandFromSource` applied to the source text, shader
kind, module identifier and dump flag — so the output is a function of
those four alone, whatever invocation or build environment produced
them. -/
theorem c1_pipeline (cg : Codegen) (env : BuildEnv)
    (fields : List RawField) (input : MacroInput) (sourceCode : String)
    (hp : parseMacroInput fields = .ok input)
    (hs : readShaderSource env input.sourceKind = .ok sourceCode) :
    vulkanoShader cg env fields
      = expandFromSource cg sourceCode input.shaderKind input.modIdent input.dump ∧
    (∀ (env2 : BuildEnv) (fields2 : List RawField) (input2 : MacroInput),
      parseMacroInput fields2 = .ok input2 →
      readShaderSource env2 input2.sourceKind = .ok sourceCode →
      input2.shaderKind = input.shaderKind → input2.modIdent = input.modIdent →
      input2.dump = input.dump →
      vulkanoShader cg env2 fields2 = vulkanoShader cg env fields) := by
  constructor
  · simp [vulkanoShader, hp, hs]
  · intro env2 fields2 input2 hp2 hs2 hk hm hd
    simp [vulkanoShader, hp, hs, hp2, hs2, hk, hm, hd]

/-- Demonstration backend for the macro-pipeline witnesses: a concrete
stand-in for the external compiler and reflector. -/
def demoCodegen : Codegen :=
  ⟨fun s _ => .ok [s.length], fun n _ m _ => .ok (n ++ "::" ++ m)⟩

/-- A build environment with no manifest dir and no readable files. -/
def emptyEnv : BuildEnv :=
  ⟨none, fun _ => false, fun _ => .error "ioerr"⟩

/-- A concrete well-formed invocation with an inline `src` source. -/
def demoSrcFields : List RawField :=
  [⟨"mod_name", .identVal "vs"⟩, ⟨"ty", .strVal "vertex"⟩,
   ⟨"src", .strVal "void main"⟩]

/-- Witness for `c1_pipeline` at a concrete invocation. -/
theorem c1_pipeline_witness :
    vulkanoShader demoCodegen emptyEnv demoSrcFields
      = expandFromSource demoCodegen "void main" ShaderKind.vertex "vs" false :=
  (c1_pipeline demoCodegen emptyEnv demoSrcFields
    ⟨"vs", .vertex, .src "void main", false⟩ "void main" rfl rfl).1

/-- C3: every error arising while the macro runs carries the underlying
diagnostic verbatim: a compile failure and a reflection failure panic with
the `unwrap` message embedding the error's rendering, and a file-read
failure panics with the `expect` message embedding the I/O error's
rendering. -/
theorem c3_diagnostics_surfaced :
    (∀ (cg : Codegen) (env : BuildEnv) (fields : List RawField)
        (input : MacroInput) (sourceCode e : String),
      parseMacroInput fields = .ok input →
      readShaderSource env input.sourceKind = .ok sourceCode →
      cg.compile sourceCode input.shaderKind = .error e →
      vulkanoShader cg env fields = .error (.panicked (unwrapPanicMsg e)) ∧
        ContainsDiagnostic (unwrapPanicMsg e) e) ∧
    (∀ (cg : Codegen) (env : BuildEnv) (fields : List RawField)
        (input : MacroInput) (p e : String),
      parseMacroInput fields = .ok input →
      input.sourceKind = .path p →
      env.isFile (pathJoin (env.manifestDir.getD ".") p) = true →
      env.readFile (pathJoin (env.manifestDir.getD ".") p) = .error e →
      vulkanoShader cg env fields = .error (.panicked
        (expectPanicMsg ("Error reading source from " ++ debugQuote p) e)) ∧
        ContainsDiagnostic
          (expectPanicMsg ("Error reading source from " ++ debugQuote p) e) e) ∧
    (∀ (cg : Codegen) (env : BuildEnv) (fields : List RawField)
        (input : MacroInput) (sourceCode : String) (bin : SpirvBinary) (e : String),
      parseMacroInput fields = .ok input →
      readShaderSource env input.sourceKind = .ok sourceCode →
      cg.compile sourceCode input.shaderKind = .ok bin →
      cg.reflect "Shader" bin input.modIdent input.dump = .error e →
      vulkanoShader cg env fields = .error (.panicked (unwrapPanicMsg e)) ∧
        ContainsDiagnostic (unwrapPanicMsg e) e) := by
  refine ⟨?_, ?_, ?_⟩
  · intro cg env fields input sourceCode e hp hs hc
    refine ⟨?_, unwrapPanicMsg_contains e⟩
    simp [vulkanoShader, hp, hs, expandFromSource, hc]
  · intro cg env fields input p e hp hsk hfile hread
    refine ⟨?_, expectPanicMsg_contains _ e⟩
    simp [vulkanoShader, hp, hsk, readShaderSource, hfile, hread]
  · intro cg env fields input sourceCode bin e hp hs hc hr
    refine ⟨?_, unwrapPanicMsg_contains e⟩
    simp [vulkanoShader, hp, hs, expandFromSource, hc, hr]

/-- A compiler stand-in whose compilation always fails with a fixed
diagnostic. -/
def failingCompileCg : Codegen :=
  ⟨fun _ _ => .error "glsl diagnostic", fun _ _ _ _ => .ok "out"⟩

/-- A reflector stand-in that always fails with a fixed diagnostic. -/
def failingReflectCg : Codegen :=
  ⟨fun s _ => .ok [s.length], fun _ _ _ _ => .error "reflect diagnostic"⟩

/-- A build environment holding one unreadable file `./shader.glsl`. -/
def unreadableFileEnv : BuildEnv :=
  ⟨none, fun q => q = "./shader.glsl", fun _ => .error "io diagnostic"⟩

/-- A concrete invocation naming a `path` source. -/
def demoPathFields : List RawField :=
  [⟨"mod_name", .identVal "vs"⟩, ⟨"ty", .strVal "vertex"⟩,
   ⟨"path", .strVal "shader.glsl"⟩]

/-- Witness for `c3_diagnostics_surfaced`: each of the three clauses at a
concrete failing scenario. -/
theorem c3_diagnostics_surfaced_witness :
    vulkanoShader failingCompileCg emptyEnv demoSrcFields
      = .error (.panicked (unwrapPanicMsg "glsl diagnostic")) ∧
    vulkanoShader failingCompileCg unreadableFileEnv demoPathFields
      = .error (.panicked (expectPanicMsg
          ("Error reading source from " ++ debugQuote "shader.glsl") "io diagnostic")) ∧
    vulkanoShader failingReflectCg emptyEnv demoSrcFields
      = .error (.panicked (unwrapPanicMsg "reflect diagnostic")) :=
  ⟨(c3_diagnostics_surfaced.1 failingCompileCg emptyEnv demoSrcFields
      ⟨"vs", .vertex, .src "void main", false⟩ "void main" "glsl diagnostic"
      rfl rfl rfl).1,
   (c3_diagnostics_surfaced.2.1 failingCompileCg unreadableFileEnv demoPathFields
      ⟨"vs", .vertex, .path "shader.glsl", false⟩ "shader.glsl" "io diagnostic"
      rfl rfl (by decide) rfl).1,
   (c3_diagnostics_surfaced.2.2 failingReflectCg emptyEnv demoSrcFields
      ⟨"vs", .vertex, .src "void main", false⟩ "void main" [9] "reflect diagnostic"
      rfl rfl rfl rfl).1⟩

/-- The invocation of `c5_counterexample` with the repository's field name
`src` replaced by the equally format-neutral name `glsl`. -/
def c5RenamedFields : List RawField :=
  [⟨"mod_name", .identVal "fs"⟩, ⟨"ty", .strVal "fragment"⟩,
   ⟨"glsl", .strVal "fragment body"⟩]

/-- C5 counterexample: two invocations identical except for one field name
are accepted and rejected respectively, and the distinction (`src` versus
`glsl`) is drawn by this repository's own field set, not by the external
GLSL/SPIR-V or Vulkan formats — so the macro's input does define a grammar
and field set owned by this repository, refuting the claim. -/
theorem c5_counterexample :
    parseMacroInput
      [⟨"mod_name", .identVal "fs"⟩, ⟨"ty", .strVal "fragment"⟩,
       ⟨"src", .strVal "fragment body"⟩]
      = .ok ⟨"fs", .fragment, .src "fragment body", false⟩ ∧
    parseMacroInput c5RenamedFields
      = .error (.panicked "Unknown field name: glsl") := by
  exact ⟨rfl, rfl⟩

/-- C5 (amended): the macro's input grammar — the field set, value shapes
and multiplicities enforced by `MacroInput::parse` — is owned by this
repository; beyond that grammar the macro adds no interface of its own:
every accepted invocation's field names come from the repository's known
set, and every token stream it produces is exactly the reflection
backend's output on the external compiler's binary output. -/
theorem c5_interface_pass_through (cg : Codegen) (env : BuildEnv)
    (fields : List RawField) :
    (∀ mi, parseMacroInput fields = .ok mi →
      ∀ f ∈ fields, f.name ∈ knownFieldNames) ∧
    (∀ ts, vulkanoShader cg env fields = .ok ts →
      ∃ mi sourceCode bin, parseMacroInput fields = .ok mi ∧
        readShaderSource env mi.sourceKind = .ok sourceCode ∧
        cg.compile sourceCode mi.shaderKind = .ok bin ∧
        cg.reflect "Shader" bin mi.modIdent mi.dump = .ok ts) := by
  constructor
  · intro mi hmi
    exact ((parseMacroInput_ok_iff fields).1 ⟨mi, hmi⟩).1
  · intro ts hts
    unfold vulkanoShader at hts
    cases hp : parseMacroInput fields with
    | error e => simp [hp] at hts
    | ok mi =>
      simp only [hp] at hts
      cases hs : readShaderSource env mi.sourceKind with
      | error e => simp [hs] at hts
      | ok sourceCode =>
        simp only [hs] at hts
        unfold expandFromSource at hts
        cases hc : cg.compile sourceCode mi.shaderKind with
        | error e => simp [hc] at hts
        | ok bin =>
          simp only [hc] at hts
          cases hr : cg.reflect "Shader" bin mi.modIdent mi.dump with
          | error e => simp [hr] at hts
          | ok ts2 =>
            simp only [hr, Except.ok.injEq] at hts
            subst hts
            exact ⟨mi, sourceCode, bin, rfl, hs, hc, hr⟩

/-- Witness for `c5_interface_pass_through` at a concrete invocation. -/
theorem c5_interface_pass_through_witness :
    ∃ mi sourceCode bin, parseMacroInput demoSrcFields = .ok mi ∧
      readShaderSource emptyEnv mi.sourceKind = .ok sourceCode ∧
      demoCodegen.compile sourceCode mi.shaderKind = .ok bin ∧
      demoCodegen.reflect "Shader" bin mi.modIdent mi.dump = .ok "Shader::vs" :=
  (c5_interface_pass_through demoCodegen emptyEnv demoSrcFields).2
    "Shader::vs" rfl

/-- C2: the generated glue matches whatever the compiled binary module
says — every interface element declared by the module's instruction stream
is represented by its glue item, and nothing is emitted that the module
does not declare. -/
theorem c2_glue_matches_module (m : BinaryModule) :
    (∀ e ∈ m.elements, glueFor e ∈ reflectGlue m) ∧
    (∀ g ∈ reflectGlue m, ∃ e ∈ m.elements, g = glueFor e) ∧
    (∀ e, glueFor e ∈ reflectGlue m → e ∈ m.elements) := by
  refine ⟨?_, ?_, ?_⟩
  · intro e he
    exact List.mem_map_of_mem glueFor he
  · intro g hg
    obtain ⟨e, he, rfl⟩ := List.mem_map.1 hg
    exact ⟨e, he, rfl⟩
  · intro e he
    obtain ⟨e2, he2, heq⟩ := List.mem_map.1 he
    rwa [← glueFor_injective heq]

/-- A two-element module for the C2 witness. -/
def demoModule : BinaryModule :=
  ⟨[.inputVar 0 "vec2", .descriptorBinding 0 0 "uniform_buffer"]⟩

/-- Witness for `c2_glue_matches_module` at a concrete module and
element. -/
theorem c2_glue_matches_module_witness :
    GlueItem.entryPointInput 0 "vec2" ∈ reflectGlue demoModule ∧
      InterfaceElem.inputVar 0 "vec2" ∈ demoModule.elements :=
  ⟨(c2_glue_matches_module demoModule).1 (.inputVar 0 "vec2") (by decide),
   (c2_glue_matches_module demoModule).2.2 (.inputVar 0 "vec2") (by decide)⟩

/-- C6: the hard logic is confined to recovering the compiled binary
module's interface and re-emitting it as typed glue — every submodule the
shader crate declares (lib.rs:170-177) does SPIR-V reflection work or glue
emission, none anything else. -/
theorem c6_work_confined :
    ∀ m ∈ shaderCrateModules,
      moduleWork m = .spirvReflection ∨ moduleWork m = .glueEmission := by
  decide

/-- Witness for `c6_work_confined` at a concrete module. -/
theorem c6_work_confined_witness :
    moduleWork "spirv_search" = .spirvReflection ∨
      moduleWork "spirv_search" = .glueEmission :=
  c6_work_confined "spirv_search" (by decide)

/-- C7: the per-frame ordering is expressed solely through the native
fence/semaphore/queue-submission combinators chained in the conventional
manner: the chain built each frame appends exactly
acquire → execute → present → fence-signal after the previous frame's
constraints, and it introduces no lock, atomic, or other hand-rolled
synchronisation. -/
theorem c7_native_sync_only (prev : FrameFuture) :
    (usesOnlyNativeSync prev = true →
      usesOnlyNativeSync (frameFuture prev) = true) ∧
    stageTrace (frameFuture prev) = stageTrace prev ++
      [.acquireImage, .executeCommands, .presentImage, .signalFence] := by
  constructor
  · intro h
    simp [frameFuture, usesOnlyNativeSync, h]
  · simp [frameFuture, stageTrace]

/-- Witness for `c7_native_sync_only` at the initial `now` future. -/
theorem c7_native_sync_only_witness :
    usesOnlyNativeSync (frameFuture .now) = true :=
  (c7_native_sync_only .now).1 rfl

/-- A benign per-iteration API response: fixed window size, successful
recreation and acquisition, no close event. -/
def benignApi : ApiIter := ⟨(800, 600), .success, .success 0, false⟩

/-- The loop state on entry to the first iteration (triangle.rs:139-141):
framebuffers not yet built, `recreate_swapchain` false. -/
def initialLoopState : LoopState := ⟨(800, 600), false, false⟩

/-- C4 counterexample: the first and second iterations of the render loop,
fed identical native-API responses, perform different operation sequences —
`createFramebuffers` runs in the first and is skipped in the second purely
because of the program-maintained `framebuffers` cache (triangle.rs:139,
170-177).  So an operation is conditionally skipped based on state
maintained by the program itself, not on values returned by the native
API, refuting the claim. -/
theorem c4_counterexample :
    (loopIter initialLoopState benignApi).1
      ≠ (loopIter (loopIter initialLoopState benignApi).2.1 benignApi).1 := by
  decide

/-- C4 (amended): each iteration's conditional structure is exactly the
two program-state guards and the two continue-based retries the code
contains: in steady state (flag clear, framebuffers cached, successful
acquisition) the iteration is the fixed unconditional call sequence and
leaves the loop state unchanged; the swapchain-recreation block runs
exactly when the `recreate_swapchain` flag is set; framebuffer
construction runs exactly when the cache is empty or a successful
recreation has just invalidated it; the iteration is retried via
`continue` exactly when recreation returns `UnsupportedDimensions` or
acquisition is reached and returns `OutOfDate`; and an `OutOfDate`
acquisition sets the `recreate_swapchain` flag for the retry. -/
theorem c4_loop_structure (st : LoopState) (api : ApiIter) :
    (∀ n, api.acquire = .success n → st.recreateSwapchain = false →
      st.framebuffersPresent = true →
      loopIter st api = (TriOp.cleanupFinished :: renderOps, st,
        if api.closedEvent then .exitProgram else .nextFrame)) ∧
    (TriOp.getInnerSize ∈ (loopIter st api).1 ↔ st.recreateSwapchain = true) ∧
    (TriOp.createFramebuffers ∈ (loopIter st api).1 ↔
      (st.recreateSwapchain = false ∧ st.framebuffersPresent = false) ∨
        (st.recreateSwapchain = true ∧ api.recreate = .success)) ∧
    ((loopIter st api).2.2 = .continueLoop ↔
      (st.recreateSwapchain = true ∧ api.recreate = .unsupportedDimensions) ∨
        ((st.recreateSwapchain = false ∨ api.recreate = .success) ∧
          api.acquire = .outOfDate)) ∧
    (api.acquire = .outOfDate →
      st.recreateSwapchain = false ∨ api.recreate = .success →
      (loopIter st api).2.1.recreateSwapchain = true) := by
  obtain ⟨dims, rec, fb⟩ := st
  obtain ⟨size, hrec, hacq, closed⟩ := api
  refine ⟨?_, ?_, ?_, ?_, ?_⟩
  · rintro n hn rfl rfl
    simp at hn
    simp [loopIter, framebufferAndRender, hn]
  · cases rec <;> cases fb <;> cases hrec <;> cases hacq <;>
      simp [loopIter, framebufferAndRender, renderOps]
  · cases rec <;> cases fb <;> cases hrec <;> cases hacq <;>
      simp [loopIter, framebufferAndRender, renderOps]
  · cases rec <;> cases fb <;> cases hrec <;> cases hacq <;> cases closed <;>
      simp [loopIter, framebufferAndRender, renderOps]
  · cases rec <;> cases fb <;> cases hrec <;> cases hacq <;>
      simp [loopIter, framebufferAndRender, renderOps]

/-- An API response whose image acquisition reports `OutOfDate`. -/
def outOfDateApi : ApiIter := ⟨(800, 600), .success, .outOfDate, false⟩

/-- Witness for `c4_loop_structure`: the steady-state iteration, and the
continue-based retry with the flag set after an `OutOfDate` acquisition,
at concrete states and API responses. -/
theorem c4_loop_structure_witness :
    loopIter ⟨(800, 600), false, true⟩ benignApi
      = (TriOp.cleanupFinished :: renderOps, ⟨(800, 600), false, true⟩,
        .nextFrame) ∧
    (loopIter ⟨(800, 600), false, true⟩ outOfDateApi).2.2 = .continueLoop ∧
    (loopIter ⟨(800, 600), false, true⟩ outOfDateApi).2.1.recreateSwapchain
      = true :=
  ⟨(c4_loop_structure ⟨(800, 600), false, true⟩ benignApi).1 0 rfl rfl rfl,
   (c4_loop_structure ⟨(800, 600), false, true⟩ outOfDateApi).2.2.2.1.mpr
     (Or.inr ⟨Or.inl rfl, rfl⟩),
   (c4_loop_structure ⟨(800, 600), false, true⟩ outOfDateApi).2.2.2.2 rfl
     (Or.inl rfl)⟩

end Vulkano
